import Mathlib

/-!
Verification of the PedidosTienda order-management service (src/main.py).

The embedding models the committed database state as a `DB` record and each
FastAPI handler as a function from inputs and a `DB` to a result paired with
the post-state.  SQLAlchemy session semantics are reflected in the commit
points of the source: `create_orders` commits the find-or-create customer
before validating the batch items, and uncommitted `db.add` calls vanish when
a handler raises (the session is closed without commit), so a failing batch
leaves the order table untouched while a freshly created customer persists.
Generated primary keys are modelled by the `nextCustomerId` / `nextOrderId`
counters, and the server clock by an explicit `now` argument.
-/

namespace PedidosTienda

structure Product where
  id : Nat
  name : String
  deriving Repr, DecidableEq

structure Customer where
  id : Nat
  name : String
  deriving Repr, DecidableEq

structure Order where
  id : Nat
  product_id : Nat
  customer_id : Nat
  quantity : Int
  status : String
  timestamp : Nat
  deriving Repr, DecidableEq

/-- Pydantic `OrderCreate`: `product_id`, `quantity`, and a `status` field the
caller may supply, defaulting to `"pendiente"` (main.py lines 97-100). -/
structure OrderCreate where
  product_id : Nat
  quantity : Int
  status : String := "pendiente"
  deriving Repr, DecidableEq

structure HTTPException where
  status_code : Nat
  detail : String
  deriving Repr, DecidableEq

/-- The committed database state: the three tables plus the generated-id
counters of the underlying store. -/
structure DB where
  products : List Product
  customers : List Customer
  orders : List Order
  nextCustomerId : Nat
  nextOrderId : Nat
  deriving Repr, DecidableEq

/-- `valid_statuses` from `update_order_status` (main.py line 191). -/
def valid_statuses : List String := ["pendiente", "en proceso", "completado"]

def findProduct (db : DB) (pid : Nat) : Option Product :=
  db.products.find? (fun p => p.id == pid)

def findOrder (db : DB) (oid : Nat) : Option Order :=
  db.orders.find? (fun o => o.id == oid)

def findCustomerByName (db : DB) (name : String) : Option Customer :=
  db.customers.find? (fun c => c.name == name)

/-- Handler `get_order` (main.py lines 143-148): pure read, 404 when the id is
absent. -/
def get_order (order_id : Nat) (db : DB) : Except HTTPException Order × DB :=
  match findOrder db order_id with
  | none => (.error ⟨404, "Order not found"⟩, db)
  | some o => (.ok o, db)

/-- Handler `get_order_status` (main.py lines 178-183): same pure read as
`get_order`, exposed under the status path. -/
def get_order_status (order_id : Nat) (db : DB) : Except HTTPException Order × DB :=
  match findOrder db order_id with
  | none => (.error ⟨404, "Order not found"⟩, db)
  | some o => (.ok o, db)

/-- The detail string of the invalid-status error (main.py line 193),
rendering the list of valid statuses. -/
def invalidStatusDetail (l : List String) : String :=
  "Invalid status. Valid statuses: " ++ String.intercalate ", " l

/-- Handler `update_order_status` (main.py lines 186-197): 404 if the order id
is unknown, 400 listing `valid_statuses` if the requested value is not among
them, otherwise overwrite the status field of that row and return it. -/
def update_order_status (order_id : Nat) (new_status : String) (db : DB) :
    Except HTTPException Order × DB :=
  match findOrder db order_id with
  | none => (.error ⟨404, "Order not found"⟩, db)
  | some o =>
    if new_status ∈ valid_statuses then
      (.ok { o with status := new_status },
       { db with orders := db.orders.map (fun x =>
           if x.id == order_id then { x with status := new_status } else x) })
    else
      (.error ⟨400, invalidStatusDetail valid_statuses⟩, db)

/-- Handler `create_customer` (main.py lines 201-212): find-or-create by name,
returning the existing row when present. -/
def create_customer (name : String) (db : DB) : Customer × DB :=
  match findCustomerByName db name with
  | some existing => (existing, db)
  | none =>
    let c : Customer := { id := db.nextCustomerId, name := name }
    (c, { db with customers := db.customers ++ [c],
                  nextCustomerId := db.nextCustomerId + 1 })

/-- The detail string of the missing-product error (main.py line 163). -/
def productMissingDetail (pid : Nat) : String :=
  "Producto ID " ++ toString pid ++ " no existe"

/-- The item loop of `create_orders` (main.py lines 160-171): walk the items in
order, fail at the first one whose product id is absent, otherwise build the
order rows with sequentially generated ids.  The rows only become visible in
the store if the whole loop succeeds (the session commit at line 172). -/
def buildOrders (db : DB) (cid : Nat) (now : Nat) :
    List OrderCreate → Nat → Except HTTPException (List Order)
  | [], _ => .ok []
  | item :: rest, nid =>
    match findProduct db item.product_id with
    | none => .error ⟨400, productMissingDetail item.product_id⟩
    | some _ =>
      match buildOrders db cid now rest (nid + 1) with
      | .error e => .error e
      | .ok os =>
        .ok ({ id := nid, product_id := item.product_id, customer_id := cid,
               quantity := item.quantity, status := item.status,
               timestamp := now } :: os)

/-- Handler `create_orders` (main.py lines 150-175).  The customer is
found-or-created and committed first (lines 153-158, identical logic to
`create_customer`); then each item is validated and staged; a missing product
raises before the order commit, so the post-state of a failure keeps the
committed customer but no new order rows. -/
def create_orders (orders : List OrderCreate) (customer_name : String)
    (now : Nat) (db : DB) : Except HTTPException (List Order) × DB :=
  let resolved := create_customer customer_name db
  let customer := resolved.1
  let db1 := resolved.2
  match buildOrders db1 customer.id now orders db1.nextOrderId with
  | .error e => (.error e, db1)
  | .ok os =>
    (.ok os, { db1 with orders := db1.orders ++ os,
                        nextOrderId := db1.nextOrderId + os.length })

/-- The invariant claimed by the spec: every stored order has a status in the
fixed enumeration. -/
def statusInvariant (db : DB) : Prop :=
  ∀ o ∈ db.orders, o.status ∈ valid_statuses

instance (db : DB) : Decidable (statusInvariant db) := by
  unfold statusInvariant; infer_instance

/-- The seeded store of `add_sample_products` (main.py lines 45-68): the five
fixed products, no customers, no orders. -/
def db0 : DB :=
  { products := [⟨1, "Leche"⟩, ⟨2, "Cafe"⟩, ⟨3, "Chocolatada"⟩,
                 ⟨4, "Agua"⟩, ⟨5, "Gaseosa"⟩],
    customers := [], orders := [], nextCustomerId := 1, nextOrderId := 1 }

/-- A store holding one pending order, used as a concrete witness state. -/
def dbA : DB :=
  { products := db0.products,
    customers := [⟨1, "Ana"⟩],
    orders := [⟨1, 2, 1, 3, "pendiente", 0⟩],
    nextCustomerId := 2, nextOrderId := 2 }

/-! ### Helper lemmas shared by several claims -/

theorem create_customer_products (name : String) (db : DB) :
    (create_customer name db).2.products = db.products := by
  unfold create_customer
  cases findCustomerByName db name <;> simp

theorem create_customer_orders (name : String) (db : DB) :
    (create_customer name db).2.orders = db.orders := by
  unfold create_customer
  cases findCustomerByName db name <;> simp

theorem findProduct_create_customer (name : String) (db : DB) (pid : Nat) :
    findProduct (create_customer name db).2 pid = findProduct db pid := by
  unfold findProduct
  rw [create_customer_products]

theorem create_customer_self_mem (name : String) (db : DB) :
    (create_customer name db).1 ∈ (create_customer name db).2.customers ∧
    (create_customer name db).1.name = name := by
  unfold create_customer
  cases hf : findCustomerByName db name with
  | none => simp
  | some c =>
    unfold findCustomerByName at hf
    refine ⟨?_, ?_⟩
    · simpa using List.mem_of_find?_eq_some hf
    · have := List.find?_some hf
      simpa using this

theorem update_order_status_none (db : DB) (oid : Nat) (s : String)
    (ho : findOrder db oid = none) :
    update_order_status oid s db = (.error ⟨404, "Order not found"⟩, db) := by
  unfold update_order_status
  rw [ho]

theorem update_order_status_some (db : DB) (oid : Nat) (s : String) (o : Order)
    (ho : findOrder db oid = some o) :
    update_order_status oid s db =
      if s ∈ valid_statuses then
        (.ok { o with status := s },
         { db with orders := db.orders.map (fun x =>
             if x.id == oid then { x with status := s } else x) })
      else
        (.error ⟨400, invalidStatusDetail valid_statuses⟩, db) := by
  unfold update_order_status
  rw [ho]

theorem create_customer_found (name : String) (db : DB) (c : Customer)
    (hf : findCustomerByName db name = some c) :
    create_customer name db = (c, db) := by
  unfold create_customer
  rw [hf]

theorem create_customer_notfound (name : String) (db : DB)
    (hf : findCustomerByName db name = none) :
    create_customer name db =
      (⟨db.nextCustomerId, name⟩,
       { db with customers := db.customers ++ [⟨db.nextCustomerId, name⟩],
                 nextCustomerId := db.nextCustomerId + 1 }) := by
  unfold create_customer
  rw [hf]

theorem buildOrders_error_of_missing (db : DB) (cid now : Nat)
    (items : List OrderCreate) (nid : Nat)
    (h : ∃ it ∈ items, findProduct db it.product_id = none) :
    ∃ pid, (∃ it ∈ items, it.product_id = pid) ∧ findProduct db pid = none ∧
      buildOrders db cid now items nid = .error ⟨400, productMissingDetail pid⟩ := by
  induction items generalizing nid with
  | nil => simp at h
  | cons item rest ih =>
    cases hp : findProduct db item.product_id with
    | none =>
      refine ⟨item.product_id, ⟨item, List.mem_cons_self _ _, rfl⟩, hp, ?_⟩
      unfold buildOrders
      rw [hp]
    | some p =>
      have hr : ∃ it ∈ rest, findProduct db it.product_id = none := by
        rcases h with ⟨it, hmem, hnone⟩
        rcases List.mem_cons.mp hmem with heq | hmem'
        · subst heq
          rw [hp] at hnone
          exact absurd hnone (by simp)
        · exact ⟨it, hmem', hnone⟩
      obtain ⟨pid, ⟨it, hit, hpid⟩, hnone, heq⟩ := ih (nid + 1) hr
      refine ⟨pid, ⟨it, List.mem_cons_of_mem _ hit, hpid⟩, hnone, ?_⟩
      unfold buildOrders
      rw [hp, heq]

theorem buildOrders_ok_statuses (db : DB) (cid now : Nat)
    (items : List OrderCreate) (nid : Nat) (os : List Order)
    (h : buildOrders db cid now items nid = .ok os) :
    os.map Order.status = items.map OrderCreate.status := by
  induction items generalizing nid os with
  | nil =>
    unfold buildOrders at h
    simp at h
    subst h
    simp
  | cons item rest ih =>
    unfold buildOrders at h
    cases hp : findProduct db item.product_id with
    | none => rw [hp] at h; exact absurd h (by simp)
    | some p =>
      rw [hp] at h
      cases hb : buildOrders db cid now rest (nid + 1) with
      | error e => rw [hb] at h; exact absurd h (by simp)
      | ok os' =>
        rw [hb] at h
        simp at h
        subst h
        simpa using ih (nid + 1) os' hb

/-! ### C1 -/

/-- C1 (counterexample): the claim says a batch-create failing on a missing
product id "writes nothing to the store: no row of any kind (Order or
Customer) is persisted".  On the seeded store, the batch
`[ { product_id := 99, quantity := 1 } ]` for customer "Ana" fails with the
descriptive error, yet the customer table gains the row for "Ana": the
customer commit at main.py line 157 happens before item validation. -/
theorem C1_counterexample :
    (create_orders [{ product_id := 99, quantity := 1 }] "Ana" 0 db0).1 =
      .error ⟨400, productMissingDetail 99⟩ ∧
    (create_orders [{ product_id := 99, quantity := 1 }] "Ana" 0 db0).2.customers =
      [⟨1, "Ana"⟩] ∧
    db0.customers = [] :=
  ⟨rfl, rfl, rfl⟩

/-- C1 (amended): if some item of a batch-create request names a product id
absent from the store, the operation fails with the error naming an offending
product id and persists no Order row; a newly created Customer row, however,
may be persisted by the failed call (it is committed before item
validation). -/
theorem C1_missing_product_rejected_no_order_rows
    (items : List OrderCreate) (name : String) (now : Nat) (db : DB)
    (h : ∃ it ∈ items, findProduct db it.product_id = none) :
    (∃ pid, (∃ it ∈ items, it.product_id = pid) ∧ findProduct db pid = none ∧
        (create_orders items name now db).1 = .error ⟨400, productMissingDetail pid⟩) ∧
    (create_orders items name now db).2.orders = db.orders := by
  have h' : ∃ it ∈ items, findProduct (create_customer name db).2 it.product_id = none := by
    rcases h with ⟨it, hm, hn⟩
    exact ⟨it, hm, by rw [findProduct_create_customer]; exact hn⟩
  obtain ⟨pid, hmem, hnone, heq⟩ :=
    buildOrders_error_of_missing (create_customer name db).2
      (create_customer name db).1.id now items (create_customer name db).2.nextOrderId h'
  rw [findProduct_create_customer] at hnone
  constructor
  · refine ⟨pid, hmem, hnone, ?_⟩
    simp only [create_orders]
    rw [heq]
  · simp only [create_orders]
    rw [heq]
    exact create_customer_orders name db

/-- C1 witness: the amended theorem applied to the seeded store and a batch
whose single item names the absent product id 99. -/
theorem C1_witness :
    (∃ pid, (∃ it ∈ [({ product_id := 99, quantity := 1 } : OrderCreate)],
          it.product_id = pid) ∧ findProduct db0 pid = none ∧
        (create_orders [{ product_id := 99, quantity := 1 }] "Ana" 0 db0).1 =
          .error ⟨400, productMissingDetail pid⟩) ∧
    (create_orders [{ product_id := 99, quantity := 1 }] "Ana" 0 db0).2.orders =
      db0.orders :=
  C1_missing_product_rejected_no_order_rows
    [{ product_id := 99, quantity := 1 }] "Ana" 0 db0 (by decide)

/-! ### C4 -/

/-- C4: a batch-create request containing at least one item with a
non-existent product id leaves the store's order count unchanged and fails
with the invalid-reference client error (status code 400). -/
theorem C4_failed_batch_preserves_order_count
    (items : List OrderCreate) (name : String) (now : Nat) (db : DB)
    (h : ∃ it ∈ items, findProduct db it.product_id = none) :
    (create_orders items name now db).2.orders.length = db.orders.length ∧
    ∃ e, (create_orders items name now db).1 = .error e ∧ e.status_code = 400 := by
  have h' : ∃ it ∈ items, findProduct (create_customer name db).2 it.product_id = none := by
    rcases h with ⟨it, hm, hn⟩
    exact ⟨it, hm, by rw [findProduct_create_customer]; exact hn⟩
  obtain ⟨pid, hmem, hnone, heq⟩ :=
    buildOrders_error_of_missing (create_customer name db).2
      (create_customer name db).1.id now items (create_customer name db).2.nextOrderId h'
  constructor
  · simp only [create_orders]
    rw [heq, create_customer_orders name db]
  · refine ⟨⟨400, productMissingDetail pid⟩, ?_, rfl⟩
    simp only [create_orders]
    rw [heq]

/-- C4 witness: the theorem applied to the seeded store and a batch naming the
absent product id 99. -/
theorem C4_witness :
    (create_orders [{ product_id := 99, quantity := 2 }] "Bea" 0 db0).2.orders.length =
      db0.orders.length ∧
    ∃ e, (create_orders [{ product_id := 99, quantity := 2 }] "Bea" 0 db0).1 =
        .error e ∧ e.status_code = 400 :=
  C4_failed_batch_preserves_order_count
    [{ product_id := 99, quantity := 2 }] "Bea" 0 db0 (by decide)

/-! ### C10 -/

/-- C10: batch-create with an empty item list succeeds for every customer
name and store: it returns the empty list, leaves the order table unchanged,
and still find-or-creates and persists the named customer, so a Customer row
can be committed by a request that creates no orders. -/
theorem C10_empty_batch_creates_customer (name : String) (now : Nat) (db : DB) :
    (create_orders [] name now db).1 = .ok [] ∧
    (create_orders [] name now db).2.orders = db.orders ∧
    ∃ c ∈ (create_orders [] name now db).2.customers, c.name = name := by
  have hbuild : buildOrders (create_customer name db).2 (create_customer name db).1.id
      now [] (create_customer name db).2.nextOrderId = .ok [] := rfl
  refine ⟨?_, ?_, ?_⟩
  · simp only [create_orders]
    rw [hbuild]
  · simp only [create_orders]
    rw [hbuild]
    simpa using create_customer_orders name db
  · obtain ⟨hmem, hname⟩ := create_customer_self_mem name db
    refine ⟨(create_customer name db).1, ?_, hname⟩
    simp only [create_orders]
    rw [hbuild]
    simpa using hmem

/-! ### C2 -/

/-- C2 (counterexample): the claim says no status value outside the
enumeration is ever stored "regardless of what status string a caller
supplies at order creation".  But `create_orders` persists the caller-supplied
`OrderCreate.status` verbatim (main.py line 168) without validating it:
creating an order with status "enviado" stores "enviado". -/
theorem C2_counterexample :
    (create_orders [{ product_id := 2, quantity := 1, status := "enviado" }]
        "Ana" 0 db0).2.orders.map Order.status = ["enviado"] ∧
    "enviado" ∉ valid_statuses :=
  ⟨rfl, by decide⟩

/-- C2 (amended): the three-value status enumeration is enforced only by the
status-transition operation; order creation stores the caller-supplied status
string verbatim.  Hence the invariant is preserved by every transition call,
and by batch creation exactly when every item's status field lies in the
enumeration (as the default "pendiente" does). -/
theorem C2_status_enum_enforced_only_on_transition
    (db : DB) (items : List OrderCreate) (name : String) (now oid : Nat) (s : String)
    (h : statusInvariant db)
    (hitems : ∀ it ∈ items, it.status ∈ valid_statuses) :
    statusInvariant (create_orders items name now db).2 ∧
    statusInvariant (update_order_status oid s db).2 := by
  constructor
  · cases hb : buildOrders (create_customer name db).2 (create_customer name db).1.id
        now items (create_customer name db).2.nextOrderId with
    | error e =>
      simp only [create_orders]
      rw [hb]
      intro o ho
      rw [create_customer_orders] at ho
      exact h o ho
    | ok os =>
      simp only [create_orders]
      rw [hb]
      intro o ho
      simp only [List.mem_append] at ho
      rcases ho with ho | ho
      · rw [create_customer_orders] at ho
        exact h o ho
      · have hst : o.status ∈ os.map Order.status := List.mem_map.mpr ⟨o, ho, rfl⟩
        rw [buildOrders_ok_statuses _ _ _ _ _ _ hb] at hst
        obtain ⟨it, hit, heq⟩ := List.mem_map.mp hst
        rw [← heq]
        exact hitems it hit
  · cases hf : findOrder db oid with
    | none =>
      rw [update_order_status_none db oid s hf]
      exact h
    | some o =>
      rw [update_order_status_some db oid s o hf]
      by_cases hs : s ∈ valid_statuses
      · rw [if_pos hs]
        intro o' ho'
        obtain ⟨x, hx, rfl⟩ := List.mem_map.mp ho'
        by_cases hid : x.id == oid
        · rw [if_pos hid]
          exact hs
        · rw [if_neg hid]
          exact h x hx
      · rw [if_neg hs]
        exact h

/-- C2 witness: the amended theorem applied to a one-order store, a default
batch item and the transition to "en proceso". -/
theorem C2_witness :
    statusInvariant (create_orders [{ product_id := 2, quantity := 3 }] "Ana" 0 dbA).2 ∧
    statusInvariant (update_order_status 1 "en proceso" dbA).2 :=
  C2_status_enum_enforced_only_on_transition dbA
    [{ product_id := 2, quantity := 3 }] "Ana" 0 1 "en proceso"
    (by decide) (by decide)

/-! ### C3 -/

/-- C3: a status-transition request on a stored order with a value outside
the enumeration fails with the invalid-status client error, whose detail
lists every valid value, and the store (hence the order, all its fields, and
every other row) is unchanged. -/
theorem C3_invalid_status_rejected
    (db : DB) (oid : Nat) (s : String) (o : Order)
    (ho : findOrder db oid = some o) (hs : s ∉ valid_statuses) :
    (update_order_status oid s db).1 =
      .error ⟨400, invalidStatusDetail valid_statuses⟩ ∧
    (update_order_status oid s db).2 = db ∧
    invalidStatusDetail valid_statuses =
      "Invalid status. Valid statuses: pendiente, en proceso, completado" := by
  refine ⟨?_, ?_, rfl⟩
  · rw [update_order_status_some db oid s o ho, if_neg hs]
  · rw [update_order_status_some db oid s o ho, if_neg hs]

/-- C3 witness: the theorem applied to the one-order store and the
out-of-enumeration value "enviado". -/
theorem C3_witness :
    (update_order_status 1 "enviado" dbA).1 =
      .error ⟨400, invalidStatusDetail valid_statuses⟩ ∧
    (update_order_status 1 "enviado" dbA).2 = dbA ∧
    invalidStatusDetail valid_statuses =
      "Invalid status. Valid statuses: pendiente, en proceso, completado" :=
  C3_invalid_status_rejected dbA 1 "enviado" ⟨1, 2, 1, 3, "pendiente", 0⟩
    (by decide) (by decide)

/-! ### C5 -/

/-- C5 (counterexample): the claim says no creation input can produce an
order whose first stored status differs from the default "pendiente".  But
the status field of a batch item is caller-configurable and stored verbatim:
creating with status "completado" yields an order born in "completado". -/
theorem C5_counterexample :
    (create_orders [{ product_id := 2, quantity := 1, status := "completado" }]
        "Ana" 0 db0).1 = .ok [⟨1, 2, 1, 1, "completado", 0⟩] ∧
    (create_orders [{ product_id := 2, quantity := 1, status := "completado" }]
        "Ana" 0 db0).2.orders.map Order.status = ["completado"] ∧
    ("completado" : String) ≠ "pendiente" :=
  ⟨rfl, rfl, by decide⟩

/-- C5 (amended): an order whose creation item leaves the status field at its
default starts in status "pendiente"; the status is, however, configurable at
creation, so a caller supplying another value skips the pending state. -/
theorem C5_default_creation_starts_pending
    (items : List OrderCreate) (name : String) (now : Nat) (db : DB) (os : List Order)
    (h : (create_orders items name now db).1 = .ok os)
    (hdef : ∀ it ∈ items, it.status = "pendiente") :
    ∀ o ∈ os, o.status = "pendiente" := by
  cases hb : buildOrders (create_customer name db).2 (create_customer name db).1.id
      now items (create_customer name db).2.nextOrderId with
  | error e =>
    simp only [create_orders] at h
    rw [hb] at h
    exact absurd h (by simp)
  | ok os' =>
    simp only [create_orders] at h
    rw [hb] at h
    simp at h
    subst h
    intro o ho
    have hst : o.status ∈ os'.map Order.status := List.mem_map.mpr ⟨o, ho, rfl⟩
    rw [buildOrders_ok_statuses _ _ _ _ _ _ hb] at hst
    obtain ⟨it, hit, heq⟩ := List.mem_map.mp hst
    rw [← heq]
    exact hdef it hit

/-- C5 witness: the amended theorem applied to a default-status item on the
seeded store, evaluated at the single created order. -/
theorem C5_witness :
    ({ id := 1, product_id := 2, customer_id := 1, quantity := 3,
       status := "pendiente", timestamp := 0 } : Order).status = "pendiente" :=
  C5_default_creation_starts_pending
    [{ product_id := 2, quantity := 3 }] "Ana" 0 db0
    [{ id := 1, product_id := 2, customer_id := 1, quantity := 3,
       status := "pendiente", timestamp := 0 }]
    rfl (by decide) _ (by decide)

/-! ### C6 -/

/-- C6: the explicit customer-create operation is idempotent find-or-create.
Under the store's name-uniqueness constraint (at most one Customer row per
name), calling it twice in succession with the same name returns the same
customer both times, the second call changes nothing (no conflict is
signalled), and afterwards exactly one Customer row with that name exists. -/
theorem C6_create_customer_idempotent (name : String) (db : DB)
    (h : (db.customers.filter (fun c => c.name == name)).length ≤ 1) :
    (create_customer name (create_customer name db).2).1 =
      (create_customer name db).1 ∧
    (create_customer name (create_customer name db).2).2 =
      (create_customer name db).2 ∧
    ((create_customer name (create_customer name db).2).2.customers.filter
        (fun c => c.name == name)).length = 1 := by
  cases hf : findCustomerByName db name with
  | some c =>
    have e1 : create_customer name db = (c, db) := create_customer_found name db c hf
    have hc : c ∈ db.customers.filter (fun c => c.name == name) := by
      unfold findCustomerByName at hf
      have hmem : c ∈ db.customers := List.mem_of_find?_eq_some hf
      have hpc : (c.name == name) = true := (List.find?_eq_some.mp hf).1
      exact List.mem_filter.mpr ⟨hmem, hpc⟩
    have hge : 1 ≤ (db.customers.filter (fun c => c.name == name)).length :=
      List.length_pos.mpr (List.ne_nil_of_mem hc)
    refine ⟨?_, ?_, ?_⟩
    · simp only [e1]
    · simp only [e1]
    · simp only [e1]
      omega
  | none =>
    have e1 := create_customer_notfound name db hf
    have hnone : db.customers.find? (fun c => c.name == name) = none := hf
    have hf2 : findCustomerByName (create_customer name db).2 name =
        some ⟨db.nextCustomerId, name⟩ := by
      rw [e1]
      unfold findCustomerByName
      simp only [List.find?_append, hnone, Option.none_or]
      simp
    have e2 := create_customer_found name (create_customer name db).2
      ⟨db.nextCustomerId, name⟩ hf2
    refine ⟨?_, ?_, ?_⟩
    · rw [e2]
      simp only [e1]
    · rw [e2]
    · rw [e2, e1]
      simp only [List.filter_append]
      rw [List.filter_eq_nil_iff.mpr (by simpa using List.find?_eq_none.mp hnone)]
      simp

/-- C6 witness: the theorem applied to the seeded store (no customer rows)
and the name "Ana". -/
theorem C6_witness :
    (create_customer "Ana" (create_customer "Ana" db0).2).1 =
      (create_customer "Ana" db0).1 ∧
    (create_customer "Ana" (create_customer "Ana" db0).2).2 =
      (create_customer "Ana" db0).2 ∧
    ((create_customer "Ana" (create_customer "Ana" db0).2).2.customers.filter
        (fun c => c.name == "Ana")).length = 1 :=
  C6_create_customer_idempotent "Ana" db0 (by decide)

/-! ### C7 -/

/-- C7: for an order id absent from the store, both the get-order operation
and the status-transition operation fail with the NotFound client error, and
neither changes the store. -/
theorem C7_unknown_order_not_found (db : DB) (oid : Nat) (s : String)
    (h : findOrder db oid = none) :
    (get_order oid db).1 = .error ⟨404, "Order not found"⟩ ∧
    (get_order oid db).2 = db ∧
    (update_order_status oid s db).1 = .error ⟨404, "Order not found"⟩ ∧
    (update_order_status oid s db).2 = db := by
  refine ⟨?_, ?_, ?_, ?_⟩
  · unfold get_order
    rw [h]
  · unfold get_order
    rw [h]
  · rw [update_order_status_none db oid s h]
  · rw [update_order_status_none db oid s h]

/-- C7 witness: the theorem applied to the seeded store (which holds no
orders) at order id 1. -/
theorem C7_witness :
    (get_order 1 db0).1 = .error ⟨404, "Order not found"⟩ ∧
    (get_order 1 db0).2 = db0 ∧
    (update_order_status 1 "en proceso" db0).1 =
      .error ⟨404, "Order not found"⟩ ∧
    (update_order_status 1 "en proceso" db0).2 = db0 :=
  C7_unknown_order_not_found db0 1 "en proceso" (by decide)

/-! ### C8 -/

/-- C8: a successful status transition returns the stored order with only its
status replaced, and the post-state differs from the pre-state only in that
order's status field: products, customers and the id counters are untouched,
and the order table is pointwise unchanged except that rows with the target
id get the new status and keep every other field. -/
theorem C8_transition_overwrites_only_status
    (db : DB) (oid : Nat) (s : String) (o : Order)
    (ho : findOrder db oid = some o) (hs : s ∈ valid_statuses) :
    (update_order_status oid s db).1 = .ok { o with status := s } ∧
    (update_order_status oid s db).2.products = db.products ∧
    (update_order_status oid s db).2.customers = db.customers ∧
    (update_order_status oid s db).2.nextCustomerId = db.nextCustomerId ∧
    (update_order_status oid s db).2.nextOrderId = db.nextOrderId ∧
    List.Forall₂ (fun x y : Order =>
        (x.id ≠ oid → y = x) ∧
        (x.id = oid → y.status = s ∧ y.id = x.id ∧ y.product_id = x.product_id ∧
          y.customer_id = x.customer_id ∧ y.quantity = x.quantity ∧
          y.timestamp = x.timestamp))
      db.orders (update_order_status oid s db).2.orders := by
  rw [update_order_status_some db oid s o ho, if_pos hs]
  refine ⟨rfl, rfl, rfl, rfl, rfl, ?_⟩
  rw [List.forall₂_map_right_iff, List.forall₂_same]
  intro x hx
  constructor
  · intro hne
    rw [if_neg (by simpa using hne)]
  · intro heq
    rw [if_pos (by simpa using heq)]
    exact ⟨rfl, rfl, rfl, rfl, rfl, rfl⟩

/-- C8 witness: the theorem applied to the one-order store, transitioning
order 1 from "pendiente" to "en proceso". -/
theorem C8_witness :
    (update_order_status 1 "en proceso" dbA).1 =
      .ok ⟨1, 2, 1, 3, "en proceso", 0⟩ ∧
    (update_order_status 1 "en proceso" dbA).2.products = dbA.products ∧
    (update_order_status 1 "en proceso" dbA).2.customers = dbA.customers ∧
    (update_order_status 1 "en proceso" dbA).2.nextCustomerId = dbA.nextCustomerId ∧
    (update_order_status 1 "en proceso" dbA).2.nextOrderId = dbA.nextOrderId ∧
    List.Forall₂ (fun x y : Order =>
        (x.id ≠ 1 → y = x) ∧
        (x.id = 1 → y.status = "en proceso" ∧ y.id = x.id ∧
          y.product_id = x.product_id ∧ y.customer_id = x.customer_id ∧
          y.quantity = x.quantity ∧ y.timestamp = x.timestamp))
      dbA.orders (update_order_status 1 "en proceso" dbA).2.orders :=
  C8_transition_overwrites_only_status dbA 1 "en proceso"
    ⟨1, 2, 1, 3, "pendiente", 0⟩ (by decide) (by decide)

/-! ### C9 -/

/-- C9: the read-only status-inspection handler (GET on an order's status)
never mutates the store: whatever the store state and order id, the
post-state equals the pre-state, whether the lookup succeeds or 404s. -/
theorem C9_get_order_status_pure (oid : Nat) (db : DB) :
    (get_order_status oid db).2 = db := by
  cases hf : findOrder db oid with
  | none => simp [get_order_status, hf]
  | some o => simp [get_order_status, hf]

end PedidosTienda
